import Mathlib

/-!
Verification of the fang struct-to-flag binding engine (fang.go).

The Go code is shallowly embedded: reflect types become the inductive
`GoType`, reflect kinds become `Kind`, runtime values become `GoVal`,
Go errors become `GoErr`, and every function is translated from the
source file fang.go.  Machine integers are modelled as Int/Nat with
explicit two's-power bounds where the code checks overflow.  Strings are
modelled at the character (rune) level over the ASCII range: Go's
`unicode.IsUpper` / `unicode.ToLower` are restricted to ASCII here, and
`s[0]` (a byte index) coincides with the first character on that range.
-/

set_option maxRecDepth 8000

namespace Fang

/-- Go `reflect.Kind`, restricted to the kinds the fang package inspects.
`kUPtr` stands for reflect's unsafe-pointer kind; `kComplex` stands for
both complex kinds (the code treats them identically, never listing them). -/
inductive Kind where
  | kBool | kInt8 | kInt16 | kInt32 | kInt64 | kInt
  | kUint8 | kUint16 | kUint32 | kUint64 | kUint
  | kFloat32 | kFloat64 | kString
  | kSlice | kArray | kMap | kStruct | kPtr | kChan | kFunc
  | kIface | kUintptr | kUPtr | kComplex
  deriving DecidableEq, Repr

/-- The statically known parts of one `reflect.StructField`: the Go
identifier and the struct tags read by fang (`name`, `shorthand`,
`usage`, `fang`), plus whether the field is exported (`CanSet`). -/
structure FieldMeta where
  goName : String
  nameTag : Option String
  shorthandTag : String
  usageTag : String
  fangTag : String
  exported : Bool
  deriving DecidableEq, Repr

/-- Go types as far as fang distinguishes them: primitive kinds, one level
of structure (pointer, slice, array, map, struct with tagged fields), the
kinds fang rejects or ignores, and the exact types the dispatcher matches
(`net.IP`, `net.IPNet`, `net.IPMask`, `time.Duration`, `fang.Count`,
`fang.BytesHex`). -/
inductive GoType where
  | tBool | tInt8 | tInt16 | tInt32 | tInt64 | tInt
  | tUint8 | tUint16 | tUint32 | tUint64 | tUint
  | tF32 | tF64 | tStr
  | tPtr (t : GoType)
  | tSlice (t : GoType)
  | tArray (t : GoType)
  | tMap (key elem : GoType)
  | tStruct (fields : List (FieldMeta × GoType))
  | tChan | tFunc | tIface | tUintptr | tUPtr | tComplex
  | tIP | tIPNet | tIPMask | tDuration | tCount | tBytesHex

/-- `reflect.Type.Kind()` for the embedded types.  `net.IP`, `net.IPMask`
and `fang.BytesHex` are byte slices, `net.IPNet` is a struct,
`time.Duration` is an int64, `fang.Count` is an int. -/
def GoType.kind : GoType → Kind
  | .tBool => .kBool
  | .tInt8 => .kInt8
  | .tInt16 => .kInt16
  | .tInt32 => .kInt32
  | .tInt64 => .kInt64
  | .tInt => .kInt
  | .tUint8 => .kUint8
  | .tUint16 => .kUint16
  | .tUint32 => .kUint32
  | .tUint64 => .kUint64
  | .tUint => .kUint
  | .tF32 => .kFloat32
  | .tF64 => .kFloat64
  | .tStr => .kString
  | .tPtr _ => .kPtr
  | .tSlice _ => .kSlice
  | .tArray _ => .kArray
  | .tMap _ _ => .kMap
  | .tStruct _ => .kStruct
  | .tChan => .kChan
  | .tFunc => .kFunc
  | .tIface => .kIface
  | .tUintptr => .kUintptr
  | .tUPtr => .kUPtr
  | .tComplex => .kComplex
  | .tIP => .kSlice
  | .tIPNet => .kStruct
  | .tIPMask => .kSlice
  | .tDuration => .kInt64
  | .tCount => .kInt
  | .tBytesHex => .kSlice

/-- `reflect.Type.String()` for the embedded types, used only inside
rendered error messages.  Struct types render as a fixed placeholder
(Go would list the fields; no claim renders a struct type). -/
def GoType.goString : GoType → String
  | .tBool => "bool"
  | .tInt8 => "int8"
  | .tInt16 => "int16"
  | .tInt32 => "int32"
  | .tInt64 => "int64"
  | .tInt => "int"
  | .tUint8 => "uint8"
  | .tUint16 => "uint16"
  | .tUint32 => "uint32"
  | .tUint64 => "uint64"
  | .tUint => "uint"
  | .tF32 => "float32"
  | .tF64 => "float64"
  | .tStr => "string"
  | .tPtr t => "*" ++ t.goString
  | .tSlice t => "[]" ++ t.goString
  | .tArray t => "[N]" ++ t.goString
  | .tMap k v => "map[" ++ k.goString ++ "]" ++ v.goString
  | .tStruct _ => "struct \x7b...\x7d"
  | .tChan => "chan"
  | .tFunc => "func()"
  | .tIface => "interface \x7b\x7d"
  | .tUintptr => "uintptr"
  | .tUPtr => "unsafe.Pointer"
  | .tComplex => "complex128"
  | .tIP => "net.IP"
  | .tIPNet => "net.IPNet"
  | .tIPMask => "net.IPMask"
  | .tDuration => "time.Duration"
  | .tCount => "fang.Count"
  | .tBytesHex => "fang.BytesHex"

/-- Go runtime values as far as fang observes them.  Integer values carry
their kind tag the way a Go interface value carries its dynamic type.
Go's nil map and empty map both model as `vMap []` (no claim separates
them).  `vOther` stands for values of kinds fang never reads. -/
inductive GoVal where
  | vBool (b : Bool)
  | vInt (k : Kind) (n : Int)
  | vUint (k : Kind) (n : Nat)
  | vFloat (k : Kind) (q : ℚ)
  | vStr (s : String)
  | vPtr (p : Option GoVal)
  | vSlice (xs : List GoVal)
  | vMap (entries : List (GoVal × GoVal))
  | vStruct (fields : List GoVal)
  | vOther (k : Kind)

/-- Go error values as fang produces and wraps them: `errors.New`
messages, `strconv` parse errors (the model keeps the function name and
the offending token; it does not split the syntax/range sub-kinds, which
no claim inspects), and the structured `BindError{Cause, Message, Type}`. -/
inductive GoErr where
  | errorsNew (msg : String)
  | strconvErr (fn : String) (num : String)
  | bindErr (cause : Option GoErr) (message : String) (ty : Option GoType)

/-- Whether an error's dynamic type is `*BindError` (the `err.(*BindError)`
type assertion in `WithInvoke`). -/
def GoErr.isBindErr : GoErr → Bool
  | .bindErr _ _ _ => true
  | _ => false

/-! ### ASCII character helpers (Go `unicode` restricted to ASCII) -/

def isUpperASCII (c : Char) : Bool := 'A' ≤ c && c ≤ 'Z'

def isDigitASCII (c : Char) : Bool := '0' ≤ c && c ≤ '9'

def toLowerASCII (c : Char) : Char :=
  if isUpperASCII c then Char.ofNat (c.toNat + 32) else c

/-! ### toSnakeCase (fang.go lines 430-442) -/

/-- The loop body of `toSnakeCase`: for each remaining character, write
`'-'` before it when it is upper case, then write its lower-case form
(`unicode.ToLower` is the identity on everything else in ASCII). -/
def snakeTail : List Char → List Char
  | [] => []
  | c :: rest => (if isUpperASCII c then ['-', toLowerASCII c] else [c]) ++ snakeTail rest

/-- `toSnakeCase`: lower-case the first character (`s[0]` in the source —
a byte index, which is the first character on the ASCII range this model
covers), then run the loop over the rest.  Go would panic on the empty
string (`s[0]` out of range); field identifiers are never empty, and the
model returns `""` there. -/
def toSnakeCase (s : String) : String :=
  match s.data with
  | [] => ""
  | c :: rest => ⟨toLowerASCII c :: snakeTail rest⟩

/-! ### structField metadata (fang.go lines 349-406) -/

/-- `structField.Name()`: the `name` tag when present and non-empty,
otherwise `toSnakeCase` of the Go field identifier. -/
def structFieldName (m : FieldMeta) : String :=
  match m.nameTag with
  | some name => if name.length ≠ 0 then name else toSnakeCase m.goName
  | none => toSnakeCase m.goName

/-- `strings.FieldsFunc` over the `fang` tag with separators `','` and
`' '` (empty fields are dropped). -/
def fieldsFuncAux (sep : Char → Bool) : List Char → List Char → List (List Char)
  | [], cur => if cur = [] then [] else [cur.reverse]
  | c :: rest, cur =>
    if sep c then
      (if cur = [] then fieldsFuncAux sep rest [] else cur.reverse :: fieldsFuncAux sep rest [])
    else fieldsFuncAux sep rest (c :: cur)

/-- `structField.attrs()`: the comma/space separated token list of the
`fang` tag. -/
def fieldAttrs (m : FieldMeta) : List String :=
  (fieldsFuncAux (fun c => c = ',' || c = ' ') m.fangTag.data []).map (fun cs => ⟨cs⟩)

/-- `structField.Persistent()`. -/
def fieldPersistent (m : FieldMeta) : Bool :=
  (fieldAttrs m).any (fun a => a = "persistent" || a = "persist" || a = "p")

/-- `structField.Required()`. -/
def fieldRequired (m : FieldMeta) : Bool :=
  (fieldAttrs m).any (fun a => a = "required" || a = "require" || a = "r")

/-! ### Parsing primitives (Go strconv, base 10, bit size 64) -/

def digitVal (c : Char) : Option Nat :=
  if isDigitASCII c then some (c.toNat - 48) else none

def digitsToNatAux (acc : Nat) : List Char → Option Nat
  | [] => some acc
  | c :: rest =>
    match digitVal c with
    | some d => digitsToNatAux (acc * 10 + d) rest
    | none => none

/-- A non-empty all-digit run to its value; `none` otherwise. -/
def digitsToNat : List Char → Option Nat
  | [] => none
  | cs => digitsToNatAux 0 cs

/-- Helper for `strconv.ParseInt`: digits after an optional sign, with the
signed 64-bit range check (out of range is an error, hence `none`). -/
def signedOfDigits (neg : Bool) (ds : List Char) : Option Int :=
  match digitsToNat ds with
  | none => none
  | some n =>
    if neg then (if n ≤ 2 ^ 63 then some (-(n : Int)) else none)
    else (if n ≤ 2 ^ 63 - 1 then some (n : Int) else none)

/-- `strconv.ParseInt(s, 10, 64)`: optional `'+'`/`'-'` sign, then base-10
digits, value within the signed 64-bit range.  Failures (syntax or range)
collapse to `none`; the code only forwards the error. -/
def goParseInt64 (s : String) : Option Int :=
  match s.data with
  | [] => none
  | c :: rest =>
    if c = '-' then signedOfDigits true rest
    else if c = '+' then signedOfDigits false rest
    else signedOfDigits false (c :: rest)

/-- `strconv.ParseUint(s, 10, 64)`: no sign permitted, base-10 digits,
value within the unsigned 64-bit range. -/
def goParseUint64 (s : String) : Option Nat :=
  match digitsToNat s.data with
  | some n => if n ≤ 2 ^ 64 - 1 then some n else none
  | none => none

/-- `strconv.ParseBool`: the twelve accepted token forms. -/
def goParseBool (s : String) : Option Bool :=
  if s = "1" || s = "t" || s = "T" || s = "true" || s = "TRUE" || s = "True" then some true
  else if s = "0" || s = "f" || s = "F" || s = "false" || s = "FALSE" || s = "False" then
    some false
  else none

/-- Split a character list at the first `'.'`. -/
def splitOnDot : List Char → List Char × Option (List Char)
  | [] => ([], none)
  | c :: rest =>
    if c = '.' then ([], some rest)
    else
      let (a, b) := splitOnDot rest
      (c :: a, b)

/-- Value of an all-digit run read greedily (0 for the empty run). -/
def natOfDigits (cs : List Char) : Nat :=
  cs.foldl (fun a c => a * 10 + (c.toNat - 48)) 0

/-- `strconv.ParseFloat(s, 64)` restricted to plain decimal literals
(optional sign, digits, optional fractional part; at least one digit).
The exact value is kept as a rational — the code's float branch never
uses the parsed value (see `newPrimitiveValue`), so rounding and the
exponent/hex/inf/NaN forms are not modelled. -/
def goParseFloat (s : String) : Option ℚ :=
  let signAndRest : Bool × List Char :=
    match s.data with
    | c :: rest => if c = '-' then (true, rest) else if c = '+' then (false, rest) else (false, s.data)
    | [] => (false, [])
  let (ip, fp) := splitOnDot signAndRest.2
  let q? : Option ℚ :=
    match fp with
    | none => (digitsToNat ip).map (fun n => (n : ℚ))
    | some f =>
      if (ip ++ f).all isDigitASCII && ip.length + f.length ≠ 0 then
        some ((natOfDigits ip : ℚ) + (natOfDigits f : ℚ) / (10 : ℚ) ^ f.length)
      else none
  q?.map (fun q => if signAndRest.1 then -q else q)

/-! ### newPrimitiveValue (fang.go lines 503-569) -/

/-- Outcome of a Go call: a value, a returned error, or a panic. -/
inductive PrimResult where
  | ok (v : GoVal)
  | err (e : GoErr)
  | panicked (msg : String)

/-- The signed-integer case group of the kind switch. -/
def isSignedKind : Kind → Bool
  | .kInt8 | .kInt16 | .kInt32 | .kInt64 | .kInt => true
  | _ => false

/-- The unsigned-integer case group of the kind switch. -/
def isUnsignedKind : Kind → Bool
  | .kUint8 | .kUint16 | .kUint32 | .kUint64 | .kUint => true
  | _ => false

/-- Bit width of an integer kind; the platform-native `int`/`uint` are
64 bits (the code runs on a 64-bit platform: `strconv.IntSize = 64`). -/
def intBits : Kind → Nat
  | .kInt8 | .kUint8 => 8
  | .kInt16 | .kUint16 => 16
  | .kInt32 | .kUint32 => 32
  | _ => 64

/-- `reflect.Value.OverflowInt` negated: the signed value is representable
in the target width. -/
def fitsSigned (k : Kind) (n : Int) : Bool :=
  decide (-(2 ^ (intBits k - 1) : Int) ≤ n ∧ n < (2 ^ (intBits k - 1) : Int))

/-- `reflect.Value.OverflowUint` negated: the unsigned value is
representable in the target width. -/
def fitsUnsigned (k : Kind) (n : Nat) : Bool :=
  decide (n < 2 ^ intBits k)

/-- `newPrimitiveValue(t, s)` (dispatching on `t.Kind()`, which fully
determines its behavior).

The float branch is translated faithfully from the source slip at line
559: `v := reflect.ValueOf(t).Elem()` wraps the `reflect.Type` interface
(dynamic type `*rtype`, kind pointer), so `Elem()` yields the pointed-to
`rtype` struct value (kind struct), and `v.OverflowFloat(n)` panics with
a `*reflect.ValueError` for every non-float kind — the parallel integer
branches correctly use `reflect.New(t).Elem()`.  Hence once the float
parse succeeds the call always panics, before any width check.

In the integer branches the conversions `int8(n)`, `int16(n)`, … happen
only after the overflow check passed, so they preserve the numeric value;
the model returns the number with the target kind tag.

Every kind not covered by the switch falls through to `return s, nil`. -/
def newPrimitiveValue (k : Kind) (s : String) : PrimResult :=
  if k = .kBool then
    match goParseBool s with
    | some b => .ok (.vBool b)
    | none => .err (.strconvErr "ParseBool" s)
  else if isSignedKind k then
    match goParseInt64 s with
    | none => .err (.strconvErr "ParseInt" s)
    | some n =>
      if fitsSigned k n then .ok (.vInt k n) else .err (.errorsNew "number overflow")
  else if isUnsignedKind k then
    match goParseUint64 s with
    | none => .err (.strconvErr "ParseUint" s)
    | some n =>
      if fitsUnsigned k n then .ok (.vUint k n) else .err (.errorsNew "unsigned number overflow")
  else if k = .kFloat32 || k = .kFloat64 then
    match goParseFloat s with
    | none => .err (.strconvErr "ParseFloat" s)
    | some _ => .panicked "reflect: call of reflect.Value.OverflowFloat on struct Value"
  else .ok (.vStr s)

/-! ### newMapValue (fang.go lines 486-501) -/

/-- Result of `newMapValue`: the adapter (keeping the key/elem types it
wraps) or a binding error. -/
inductive MapValueResult where
  | ok (key elem : GoType)
  | err (e : GoErr)

def MapValueResult.isErr : MapValueResult → Bool
  | .ok _ _ => false
  | .err _ => true

/-- The kind blocklist both switches of `newMapValue` test against. -/
def badMapKind : Kind → Bool
  | .kChan | .kArray | .kStruct | .kPtr | .kUPtr | .kUintptr => true
  | _ => false

/-- `newMapValue`: reject a key kind on the blocklist, then an element
kind on the blocklist (the element rejection carries `Type: m.Key` in the
source — line 497 — so both errors report the key type). -/
def newMapValue (key elem : GoType) : MapValueResult :=
  if badMapKind key.kind then .err (.bindErr none "unsupported type of map key" (some key))
  else if badMapKind elem.kind then .err (.bindErr none "unsupported type of map value" (some key))
  else .ok key elem

/-! ### mapValue.Set (fang.go lines 462-479) -/

/-- Split at the first `'='`: `none` when absent. -/
def splitEq : List Char → Option (List Char × List Char)
  | [] => none
  | c :: rest =>
    if c = '=' then some ([], rest)
    else (splitEq rest).map (fun ab => (c :: ab.1, ab.2))

/-- `strings.SplitN(arg, "=", 2)`. -/
def splitN2 (cs : List Char) : List (List Char) :=
  match splitEq cs with
  | none => [cs]
  | some (a, b) => [a, b]

/-- Go `%q` on a string, for the printable-ASCII range (only `'"'` and
`'\'` need escapes there). -/
def goQuote (s : String) : String :=
  ⟨'"' :: s.data.foldr
      (fun c acc => (if c = '"' then ['\\', '"'] else if c = '\\' then ['\\', '\\'] else [c]) ++ acc)
      ['"']⟩

/-- Outcome of `mapValue.Set`: the key/value pair written by
`SetMapIndex`, a returned binding error, or a propagated panic. -/
inductive SetOutcome where
  | ok (k v : GoVal)
  | err (e : GoErr)
  | panicked (msg : String)

/-- `mapValue.Set(arg)`: split on the first `'='`; parse the key as the
key type and the value as the element type.  Translated faithfully from
the source: the value-failure branch (line 474) formats `kv[0]` — the key
token — into its message and carries `Type: m.Key` — the key type. -/
def mapValueSet (key elem : GoType) (arg : String) : SetOutcome :=
  match splitN2 arg.data with
  | [k0, v1] =>
    (match newPrimitiveValue key.kind ⟨k0⟩ with
     | .err e =>
       .err (.bindErr (some e) ("unexpected map key " ++ goQuote ⟨k0⟩) (some key))
     | .panicked msg => .panicked msg
     | .ok kval =>
       match newPrimitiveValue elem.kind ⟨v1⟩ with
       | .err e =>
         .err (.bindErr (some e) ("unexpected map value " ++ goQuote ⟨k0⟩) (some key))
       | .panicked msg => .panicked msg
       | .ok vval => .ok kval vval)
  | _ => .err (.bindErr none "invalid key-value pair format, key=value" none)

/-! ### BindError.Error (fang.go lines 64-75) -/

/-- `error.Error()` on the embedded error values.  The `bindErr` case is
`BindError.Error`: start from `"fang: bind error"`, append
`"(type = T)"` when the type is known, append `": "` and the message,
append `"; cause by [cause]"` when a cause is known.  The `strconvErr`
rendering follows `strconv.NumError.Error` for the syntax sub-kind (no
claim inspects this text). -/
def GoErr.errString : GoErr → String
  | .errorsNew m => m
  | .strconvErr fn num => "strconv." ++ fn ++ ": parsing " ++ goQuote num ++ ": invalid syntax"
  | .bindErr cause message ty =>
    let e1 := "fang: bind error"
    let e2 :=
      match ty with
      | some t => e1 ++ "(type = " ++ t.goString ++ ")"
      | none => e1
    let e3 := e2 ++ ": " ++ message
    match cause with
    | some c => e3 ++ "; cause by [" ++ c.errString ++ "]"
    | none => e3

/-! ### newStructField (fang.go lines 408-424) and zero values -/

/-- The result of `newStructField`: the (possibly unwrapped) field type,
the value the binder works on from now (`field.Value`), and the value now
stored in the struct field (mutated through reflection). -/
structure SFResult where
  ty : GoType
  val : GoVal
  stored : GoVal

mutual
/-- The Go zero value of a type (`reflect.New(T).Elem()`). -/
def zeroVal : GoType → GoVal
  | .tBool => .vBool false
  | .tInt8 => .vInt .kInt8 0
  | .tInt16 => .vInt .kInt16 0
  | .tInt32 => .vInt .kInt32 0
  | .tInt64 => .vInt .kInt64 0
  | .tInt => .vInt .kInt 0
  | .tUint8 => .vUint .kUint8 0
  | .tUint16 => .vUint .kUint16 0
  | .tUint32 => .vUint .kUint32 0
  | .tUint64 => .vUint .kUint64 0
  | .tUint => .vUint .kUint 0
  | .tF32 => .vFloat .kFloat32 0
  | .tF64 => .vFloat .kFloat64 0
  | .tStr => .vStr ""
  | .tPtr _ => .vPtr none
  | .tSlice _ => .vSlice []
  | .tArray _ => .vSlice []
  | .tMap _ _ => .vMap []
  | .tStruct fs => .vStruct (zeroVals fs)
  | .tChan => .vOther .kChan
  | .tFunc => .vOther .kFunc
  | .tIface => .vOther .kIface
  | .tUintptr => .vUint .kUintptr 0
  | .tUPtr => .vOther .kUPtr
  | .tComplex => .vOther .kComplex
  | .tIP => .vSlice []
  | .tIPNet => .vStruct [.vSlice [], .vSlice []]
  | .tIPMask => .vSlice []
  | .tDuration => .vInt .kInt64 0
  | .tCount => .vInt .kInt 0
  | .tBytesHex => .vSlice []

/-- Zero values of a struct's field list. -/
def zeroVals : List (FieldMeta × GoType) → List GoVal
  | [] => []
  | f :: fs => zeroVal f.2 :: zeroVals fs
end

/-- `newStructField(f, v)`.  A pointer field is unwrapped one level: a nil
pointer is first set to a freshly allocated zero value of the pointed-to
type (the field is settable whenever `visitStructField` reached it), and
`field.Value` becomes the pointed-to value.  A (non-pointer) map field is
unconditionally set to a fresh empty map — the `else if` branch at line
419 runs `field.Value.Set(reflect.MakeMap(...))` without any nil check.
Every other field is kept as is.  The pointer case with a non-pointer
value cannot arise for well-typed Go values; the model keeps it the
identity. -/
def newStructField (t : GoType) (v : GoVal) : SFResult :=
  match t with
  | .tPtr te =>
    (match v with
     | .vPtr none => { ty := te, val := zeroVal te, stored := .vPtr (some (zeroVal te)) }
     | .vPtr (some inner) => { ty := te, val := inner, stored := .vPtr (some inner) }
     | _ => { ty := te, val := v, stored := v })
  | .tMap k e => { ty := .tMap k e, val := .vMap [], stored := .vMap [] }
  | _ => { ty := t, val := v, stored := v }

/-! ### invoker.WithInvoke (fang.go lines 293-322) -/

/-- A Go panic value as fang's recover inspects it: an `error`, a
`string`, or anything else. -/
inductive PanicVal where
  | pErr (e : GoErr)
  | pStr (s : String)
  | pOther

/-- What the handler passed to `WithInvoke` did. -/
inductive HandlerOutcome where
  | ret (e : Option GoErr)
  | panicked (v : PanicVal)

/-- What the `WithInvoke` call itself does. -/
inductive InvokeOutcome where
  | ret (e : Option GoErr)
  | panicked (v : PanicVal)

def InvokeOutcome.isRet : InvokeOutcome → Bool
  | .ret _ => true
  | .panicked _ => false

/-- `invoker.WithInvoke(handler)`.  When the handler panics, the deferred
function recovers, assigns a wrapping `BindError` to the named return
`err` — and then executes `panic(v)` with the original value (line 303),
so the call panics anyway and the assigned error is never returned.  When
the handler returns a non-nil error, a `*BindError` is passed through
unchanged and anything else is wrapped as
`BindError{Message: "internal error", Cause: err}`.  On a nil error the
required-flag marking follows; `cmd.Mark(Persistent)FlagRequired` on the
just-registered flag name succeeds, so this models as a nil return
(which flag set was chosen does not change the outcome). -/
def withInvoke (h : HandlerOutcome) : InvokeOutcome :=
  match h with
  | .panicked v => .panicked v
  | .ret (some e) =>
    if e.isBindErr then .ret (some e)
    else .ret (some (.bindErr (some e) "internal error" none))
  | .ret none => .ret none

/-! ### The field walk and dispatch (fang.go lines 105-264, 335-347) -/

/-- The two exact element types `bindToSlice` matches first. -/
def isIPorDuration : GoType → Bool
  | .tIP | .tDuration => true
  | _ => false

/-- The element-kind switch of `bindToSlice` (lines 158-177): pflag has
slice binders only for these kinds — in particular none for the 8/16-bit
widths or the non-native 64-bit unsigned width. -/
def sliceElemOK (et : GoType) : Bool :=
  if isIPorDuration et then true
  else
    match et.kind with
    | .kBool | .kInt | .kUint | .kInt32 | .kInt64 | .kFloat32 | .kFloat64 | .kString => true
    | _ => false

/-- `bindToSlice` observed through the invoker: registration of one
option on success, a `BindError` naming the slice type otherwise. -/
def bindSliceElem (m : FieldMeta) (t et : GoType) (v : GoVal) :
    Except GoErr (GoVal × List String) :=
  if sliceElemOK et then .ok (v, [structFieldName m])
  else .error (.bindErr none "unsupported slice type" (some t))

/-- The kinds `bindToPrimitive`'s kind switch accepts (lines 210-241). -/
def primKindOK : Kind → Bool
  | .kBool | .kInt | .kInt8 | .kInt16 | .kInt32 | .kInt64
  | .kUint | .kUint8 | .kUint16 | .kUint32 | .kUint64
  | .kFloat32 | .kFloat64 | .kString => true
  | _ => false

/-- The four exact types `bindToPrimitive` matches before its kind
switch. -/
def isExactPrimType : GoType → Bool
  | .tIP | .tIPNet | .tIPMask | .tDuration => true
  | _ => false

/-- `bindToPrimitive` observed through the invoker: the exact-type matches
(IP, IPNet, IPMask, Duration) and the kind switch each register one
option; anything else is the "unsupported type of field" `BindError`
carrying the value's type. -/
def bindPrim (m : FieldMeta) (t : GoType) (v : GoVal) : Except GoErr (GoVal × List String) :=
  if isExactPrimType t then .ok (v, [structFieldName m])
  else if primKindOK t.kind then .ok (v, [structFieldName m])
  else .error (.bindErr none "unsupported type of field" (some t))

/-- The fields `visitStructField` walks for a type of struct kind:
a declared struct's own fields, or the two exported fields `IP` and
`Mask` of `net.IPNet` (only reachable when `net.IPNet` is the top-level
bind target; inside a struct the exact-type dispatch catches it first). -/
def structFieldsOf : GoType → Option (List (FieldMeta × GoType))
  | .tStruct fs => some fs
  | .tIPNet =>
    some
      [({ goName := "IP", nameTag := none, shorthandTag := "", usageTag := "", fangTag := "",
          exported := true }, .tIP),
       ({ goName := "Mask", nameTag := none, shorthandTag := "", usageTag := "", fangTag := "",
          exported := true }, .tIPMask)]
  | _ => none

/-- The value a pointer field works on after `newStructField`: the
pointed-to value, or a freshly allocated zero value when nil. -/
def ptrInner (te : GoType) : GoVal → GoVal
  | .vPtr (some i) => i
  | _ => zeroVal te

/-- The field values of a struct value. -/
def structVals : GoVal → List GoVal
  | .vStruct xs => xs
  | _ => []

mutual
/-- One exported field as `bindToStruct`'s visitor processes it: the
`newStructField` step (pointer unwrap with allocation, unconditional map
reset), then the type dispatch.  The updated stored field value and the
names of the options registered (in registration order) are returned;
registration through the invoker succeeds for every supported type, and
only the nested-struct branch can change the working value further. -/
def bindField (m : FieldMeta) (t : GoType) (v : GoVal) : Except GoErr (GoVal × List String) :=
  match t with
  | .tPtr te =>
    (match bindDispatch m te (ptrInner te v) with
     | .ok (nv, names) => .ok (.vPtr (some nv), names)
     | .error e => .error e)
  | .tMap k e => bindDispatch m (.tMap k e) (.vMap [])
  | other => bindDispatch m other v
termination_by (sizeOf t, 1)

/-- The switch of `bindToStruct`'s visitor (lines 126-144) on the
unwrapped field type: exact types first (IP, Duration, IPNet, IPMask via
`bindToPrimitive`; Count and BytesHex via their dedicated binders), then
by kind — struct recurses into the walk, array and slice go to
`bindToSlice`, map goes to `bindToMap` (`newMapValue` then `VarPF`), and
everything else to `bindToPrimitive`. -/
def bindDispatch (m : FieldMeta) (t : GoType) (v : GoVal) : Except GoErr (GoVal × List String) :=
  match t with
  | .tIP => bindPrim m .tIP v
  | .tDuration => bindPrim m .tDuration v
  | .tIPNet => bindPrim m .tIPNet v
  | .tIPMask => bindPrim m .tIPMask v
  | .tCount => .ok (v, [structFieldName m])
  | .tBytesHex => .ok (v, [structFieldName m])
  | .tStruct fs =>
    (match bindFields fs (structVals v) with
     | .ok (nvs, names) => .ok (.vStruct nvs, names)
     | .error e => .error e)
  | .tMap k e =>
    (match newMapValue k e with
     | .ok _ _ => .ok (v, [structFieldName m])
     | .err e2 => .error e2)
  | .tSlice et => bindSliceElem m (.tSlice et) et v
  | .tArray et => bindSliceElem m (.tArray et) et v
  | other => bindPrim m other v
termination_by (sizeOf t, 0)

/-- `visitStructField` threaded with the field values: exported
(settable, addressable) fields are visited in declaration order and the
walk aborts at the first error; unexported fields are skipped untouched. -/
def bindFields (fs : List (FieldMeta × GoType)) (vs : List GoVal) :
    Except GoErr (List GoVal × List String) :=
  match fs, vs with
  | [], _ => .ok ([], [])
  | (fm, ft) :: fs2, v :: vs2 =>
    if fm.exported then
      match bindField fm ft v with
      | .error e => .error e
      | .ok (nv, names) =>
        match bindFields fs2 vs2 with
        | .error e => .error e
        | .ok (nvs, names2) => .ok (nv :: nvs, names ++ names2)
    else
      match bindFields fs2 vs2 with
      | .error e => .error e
      | .ok (nvs, names2) => .ok (v :: nvs, names2)
  | _ :: _, [] => .error (.errorsNew "model: value list shorter than field list")
termination_by (sizeOf fs, 2)
end

/-! ### Binder.Bind (fang.go lines 105-120) -/

/-- Outcome of `Binder.Bind`: the updated target value with the names of
the options registered, a returned error, or a panic. -/
inductive BindOutcome where
  | ok (target : GoVal) (registered : List String)
  | err (e : GoErr)
  | panicked (msg : String)

/-- `Binder.Bind(v)`.  The target is a Go interface value: `none` is the
nil interface.  A non-pointer target and a pointer to a non-struct-kind
target are rejected with the source's messages and types.  For a nil
struct pointer, `rv.Elem()` is the zero `reflect.Value` (kind Invalid, so
the non-struct branch is taken) and building that error calls
`rv.Type()` on the zero value, which panics.  Otherwise the field walk
runs on the pointed-to struct.  Ill-typed type/value pairings cannot
arise for real Go values and surface as model errors. -/
def bindTarget (target : Option (GoType × GoVal)) : BindOutcome :=
  match target with
  | none => .err (.bindErr none "unable bind nil value to command" none)
  | some (t, v) =>
    match t with
    | .tPtr te =>
      (match v with
       | .vPtr (some pv) =>
         (match structFieldsOf te with
          | some fs =>
            (match pv with
             | .vStruct vs =>
               (match bindFields fs vs with
                | .ok (nvs, names) => .ok (.vPtr (some (.vStruct nvs))) names
                | .error e => .err e)
             | _ => .err (.errorsNew "model: ill-typed struct value"))
          | none => .err (.bindErr none "unsupported type, use struct instead" (some te)))
       | .vPtr none => .panicked "reflect: call of reflect.Value.Type on zero Value"
       | _ => .err (.errorsNew "model: ill-typed pointer value"))
    | _ => .err (.bindErr none "unable bind to non-pointer value" (some t))

/-! ### Claim-side formulations and concrete fixtures -/

/-- Claim-side formulation (from the spec's words) of the scan over the
characters after the first: insert a separator before every upper-case
character and lower-case it, leave every other character unchanged. -/
def snakeSpecScan (cs : List Char) : List Char :=
  cs.foldr (fun r acc => (if isUpperASCII r then ['-', toLowerASCII r] else [r]) ++ acc) []

/-- Claim-side formulation (from the spec's words) of the diagnostic
template `bind error(type = <T>): <message>; cause by [<cause>]` with the
type segment present iff the type is known and the cause segment present
iff a cause is known. -/
def claimedBindErrorBody (cause : Option GoErr) (message : String) (ty : Option GoType) :
    String :=
  let e1 := "bind error"
  let e2 :=
    match ty with
    | some t => e1 ++ "(type = " ++ t.goString ++ ")"
    | none => e1
  let e3 := e2 ++ ": " ++ message
  match cause with
  | some c => e3 ++ "; cause by [" ++ c.errString ++ "]"
  | none => e3

/-- Fixture: the tag-free exported field `Q *bool`. -/
def metaQ : FieldMeta :=
  { goName := "Q", nameTag := none, shorthandTag := "", usageTag := "", fangTag := "",
    exported := true }

/-- Fixture: the tag-free exported field `P`. -/
def metaP : FieldMeta :=
  { goName := "P", nameTag := none, shorthandTag := "", usageTag := "", fangTag := "",
    exported := true }

/-- Fixture: the record type `struct { Q *bool }`. -/
def innerTy : GoType := .tStruct [(metaQ, .tPtr .tBool)]

/-! ### Helper lemmas -/

theorem snakeTail_eq_spec (cs : List Char) : snakeTail cs = snakeSpecScan cs := by
  induction cs with
  | nil => rfl
  | cons c rest ih => simp [snakeTail, snakeSpecScan, ih]

theorem strAppendAssoc (a b c : String) : a ++ b ++ c = a ++ (b ++ c) := by
  cases a with
  | mk da =>
    cases b with
    | mk db =>
      cases c with
      | mk dc => exact congrArg String.mk (List.append_assoc da db dc)

/-! ### The claims -/

/-- C1: for every field identifier without a non-empty `name` tag
override, the derived option name is obtained by lower-casing the first
character and then scanning the remaining characters left to right,
inserting a `'-'` before every upper-case character (converted to
lower-case) and leaving all other characters unchanged; in particular
`toSnakeCase` maps `ILoveYou` to `i-love-you`, `HELLO` to `h-e-l-l-o`
and `Hi0_1-2AxxBC` to `hi0_1-2-axx-b-c`.  The derivation is a pure
function of the identifier alone — `structFieldName` and `toSnakeCase`
read nothing but their arguments. -/
theorem c1_option_name_derivation :
    (∀ (m : FieldMeta) (c : Char) (cs : List Char),
        (m.nameTag = none ∨ m.nameTag = some "") → m.goName = ⟨c :: cs⟩ →
        structFieldName m = ⟨toLowerASCII c :: snakeSpecScan cs⟩)
    ∧ toSnakeCase "ILoveYou" = "i-love-you"
    ∧ toSnakeCase "HELLO" = "h-e-l-l-o"
    ∧ toSnakeCase "Hi0_1-2AxxBC" = "hi0_1-2-axx-b-c" := by
  refine ⟨?_, by decide, by decide, by decide⟩
  intro m c cs htag hname
  have hsnake : toSnakeCase m.goName = ⟨toLowerASCII c :: snakeSpecScan cs⟩ := by
    rw [hname]
    show (⟨toLowerASCII c :: snakeTail cs⟩ : String) = _
    rw [snakeTail_eq_spec]
  rcases htag with h | h <;> simp [structFieldName, h, hsnake]

/-- Witness for C1 at the identifier `ILoveYou` with no `name` tag. -/
theorem c1_option_name_derivation_witness :
    structFieldName
        { goName := "ILoveYou", nameTag := none, shorthandTag := "", usageTag := "",
          fangTag := "", exported := true } = "i-love-you" := by
  have h := c1_option_name_derivation.1
    { goName := "ILoveYou", nameTag := none, shorthandTag := "", usageTag := "", fangTag := "",
      exported := true } 'I' "LoveYou".data (Or.inl rfl) rfl
  exact h.trans (by decide)

/-- C2: for every signed (resp. unsigned) integer kind — widths 8, 16,
32, 64 and the platform-native width — `newPrimitiveValue` first parses
the token as a base-10 signed (resp. unsigned) 64-bit integer; when the
parse succeeds it returns the error `number overflow`
(resp. `unsigned number overflow`) exactly when the value does not fit
the target width, and otherwise the parsed number converted to the
target kind — never a truncated value. -/
theorem c2_integer_overflow_checked :
    (∀ (k : Kind) (s : String) (n : Int), isSignedKind k = true → goParseInt64 s = some n →
        newPrimitiveValue k s =
          if fitsSigned k n then .ok (.vInt k n) else .err (.errorsNew "number overflow"))
    ∧ (∀ (k : Kind) (s : String) (n : Nat), isUnsignedKind k = true → goParseUint64 s = some n →
        newPrimitiveValue k s =
          if fitsUnsigned k n then .ok (.vUint k n)
          else .err (.errorsNew "unsigned number overflow")) := by
  constructor
  · intro k s n hk hp
    cases k <;> simp_all [newPrimitiveValue, isSignedKind, isUnsignedKind]
  · intro k s n hk hp
    cases k <;> simp_all [newPrimitiveValue, isSignedKind, isUnsignedKind]

/-- Witness for C2: `300` overflows int8 and `256` overflows uint8. -/
theorem c2_integer_overflow_checked_witness :
    newPrimitiveValue .kInt8 "300" = .err (.errorsNew "number overflow")
    ∧ newPrimitiveValue .kUint8 "256" = .err (.errorsNew "unsigned number overflow") :=
  ⟨(c2_integer_overflow_checked.1 .kInt8 "300" 300 rfl rfl).trans rfl,
   (c2_integer_overflow_checked.2 .kUint8 "256" 256 rfl rfl).trans rfl⟩

/-- C3 (code bug): the claim says the float branch of
`newPrimitiveValue` returns normally — the converted value or a hard
overflow error — for every token that parses as a 64-bit float.  The
code instead panics on every such token, for both float widths: line 559
builds the checking value with `reflect.ValueOf(t).Elem()` (a
struct-kind `reflect.Value`) instead of `reflect.New(t).Elem()`, and
`OverflowFloat` panics on a non-float kind.  This theorem evaluates the
embedded code at the failing input `1.5`. -/
theorem c3_float_check_panics :
    newPrimitiveValue .kFloat32 "1.5" =
      .panicked "reflect: call of reflect.Value.OverflowFloat on struct Value"
    ∧ newPrimitiveValue .kFloat64 "1.5" =
      .panicked "reflect: call of reflect.Value.OverflowFloat on struct Value" := ⟨rfl, rfl⟩

/-- C4 counterexample: the claim says a map whose element kind is a
slice is rejected at binding time; `newMapValue` for `map[string][]int`
succeeds instead (slice is not on the code's blocklist). -/
theorem c4_counterexample_slice_elem_accepted :
    (newMapValue .tStr (.tSlice .tInt)).isErr = false := rfl

/-- C4 amended: `newMapValue` fails exactly when the key kind or the
element kind is on the blocklist \x7bchannel, array, struct, pointer,
unsafe-pointer, uintptr\x7d; every kind of the claim's allowed set
\x7bboolean, signed and unsigned integers, floats, string\x7d is indeed
accepted (second conjunct: no allowed kind is on the blocklist), but so
are slice, map, function, complex and interface kinds — they are not
rejected at binding time. -/
theorem c4_map_kind_blocklist :
    (∀ key elem : GoType,
        (newMapValue key elem).isErr = (badMapKind key.kind || badMapKind elem.kind))
    ∧ ∀ k : Kind, (primKindOK k && badMapKind k) = false := by
  constructor
  · intro key elem
    unfold newMapValue
    cases h1 : badMapKind key.kind <;> cases h2 : badMapKind elem.kind <;>
      simp [h1, h2, MapValueResult.isErr]
  · intro k
    cases k <;> rfl

/-- C5 counterexample: the claim says a map field that already holds
entries is left unchanged by the binding step; `newStructField` on a
populated `map[string]int` field stores a fresh empty map instead. -/
theorem c5_counterexample_populated_map_reset :
    (newStructField (.tMap .tStr .tInt) (.vMap [(.vStr "a", .vInt .kInt 1)])).stored = .vMap []
    ∧ GoVal.vMap [] ≠ .vMap [(.vStr "a", .vInt .kInt 1)] := by
  refine ⟨rfl, ?_⟩
  simp

/-- C5 amended: at binding time every (non-pointer) map field is
unconditionally replaced by a fresh empty keyed container, whether or
not it was set, so the registered default is always the empty map and
pre-existing entries never survive. -/
theorem c5_map_field_always_reset :
    ∀ (k e : GoType) (v : GoVal),
      newStructField (.tMap k e) v = { ty := .tMap k e, val := .vMap [], stored := .vMap [] } :=
  fun _ _ _ => rfl

/-- C6 counterexample: the claim says every nil pointer-to-T field holds
the zero value of T after a successful bind.  For
`P *struct \x7b Q *bool \x7d` the walk recurses into the allocated
struct and allocates `Q` too, so `P` ends at a value different from the
zero value of its pointed-to type (whose `Q` is nil). -/
theorem c6_counterexample_nested_not_zero :
    bindField metaP (.tPtr innerTy) (.vPtr none) =
      .ok (.vPtr (some (.vStruct [.vPtr (some (.vBool false))])), ["q"])
    ∧ GoVal.vStruct [.vPtr (some (.vBool false))] ≠ zeroVal innerTy := by
  constructor
  · simp [bindField, bindDispatch, bindFields, innerTy, metaP, metaQ, zeroVal, zeroVals, ptrInner,
      structVals, bindPrim, structFieldName, toSnakeCase, snakeTail, isExactPrimType, primKindOK,
      GoType.kind]
    rfl
  · simp [zeroVal, zeroVals, innerTy]

/-- C6 amended: a nil pointer-to-T field is allocated to a zero-valued T
before any parsing and the binder operates on that T (first conjunct:
the `newStructField` step); after a successful bind the field is always
non-nil (second conjunct); and it holds the zero value of T whenever T
is a plain primitive kind (third conjunct) — but not in general, since
binding a pointed-to record allocates within it (see the
counterexample). -/
theorem c6_pointer_allocation :
    (∀ te : GoType, newStructField (.tPtr te) (.vPtr none) =
        { ty := te, val := zeroVal te, stored := .vPtr (some (zeroVal te)) })
    ∧ (∀ (m : FieldMeta) (te : GoType) (v nv : GoVal) (names : List String),
        bindField m (.tPtr te) v = .ok (nv, names) → ∃ w, nv = .vPtr (some w))
    ∧ (∀ (m : FieldMeta) (te : GoType), primKindOK te.kind = true →
        bindField m (.tPtr te) (.vPtr none) =
          .ok (.vPtr (some (zeroVal te)), [structFieldName m])) := by
  refine ⟨fun te => rfl, ?_, ?_⟩
  · intro m te v nv names h
    simp only [bindField] at h
    rcases hd : bindDispatch m te (ptrInner te v) with e | ⟨nv2, names2⟩ <;> rw [hd] at h <;>
      simp at h
    exact ⟨nv2, h.1.symm⟩
  · intro m te h
    cases te <;>
      simp_all [bindField, bindDispatch, bindPrim, GoType.kind, primKindOK, isExactPrimType,
        ptrInner]

/-- Witness for C6 at a nil `*bool` field: allocated, non-nil and false
after binding. -/
theorem c6_pointer_allocation_witness :
    bindField metaQ (.tPtr .tBool) (.vPtr none) = .ok (.vPtr (some (.vBool false)), ["q"]) := by
  have h := c6_pointer_allocation.2.2 metaQ .tBool rfl
  exact h.trans (by simp [zeroVal, structFieldName, metaQ, toSnakeCase, snakeTail]; rfl)

/-- C7 (code bug): the claim says a value-parse failure in
`mapValue.Set` reports the value token and the value type.  At the
failing input `a=x` for a `map[string]int` field the value token `x`
fails to parse, but the returned error quotes the key token `"a"` (the
source formats `kv[0]` at line 474) and carries the key type
(`Type: m.Key`) — only the words `map value` in the message name the
failing side. -/
theorem c7_map_value_error_at_failing_input :
    mapValueSet .tStr .tInt "a=x" =
      .err (.bindErr (some (.strconvErr "ParseInt" "x")) "unexpected map value \"a\""
        (some .tStr)) := rfl

/-- C8: `Bind` on the nil interface, on a non-pointer target, and on a
pointer whose referent is not of struct kind each return an error with
the source's message; `Bind` on a pointer to an empty struct succeeds
and registers zero options. -/
theorem c8_bind_target_validation :
    bindTarget none = .err (.bindErr none "unable bind nil value to command" none)
    ∧ (∀ (t : GoType) (v : GoVal), t.kind ≠ .kPtr →
        bindTarget (some (t, v)) =
          .err (.bindErr none "unable bind to non-pointer value" (some t)))
    ∧ (∀ (te : GoType) (pv : GoVal), te.kind ≠ .kStruct →
        bindTarget (some (.tPtr te, .vPtr (some pv))) =
          .err (.bindErr none "unsupported type, use struct instead" (some te)))
    ∧ bindTarget (some (.tPtr (.tStruct []), .vPtr (some (.vStruct [])))) =
        .ok (.vPtr (some (.vStruct []))) [] := by
  refine ⟨rfl, ?_, ?_, ?_⟩
  · intro t v h
    cases t <;> first | rfl | exact absurd rfl h
  · intro te pv h
    cases te <;> first | rfl | exact absurd rfl h
  · simp [bindTarget, bindFields, structFieldsOf]

/-- Witness for C8 at an `int` target and at a `*int` target. -/
theorem c8_bind_target_validation_witness :
    bindTarget (some (.tInt, .vInt .kInt 0)) =
      .err (.bindErr none "unable bind to non-pointer value" (some .tInt))
    ∧ bindTarget (some (.tPtr .tInt, .vPtr (some (.vInt .kInt 0)))) =
      .err (.bindErr none "unsupported type, use struct instead" (some .tInt)) :=
  ⟨c8_bind_target_validation.2.1 .tInt (.vInt .kInt 0) (by decide),
   c8_bind_target_validation.2.2.1 .tInt (.vInt .kInt 0) (by decide)⟩

/-- C9 counterexample: the claim says a panicking registration handler
is caught, wrapped into the structured error type and *returned*.  A
handler that panics with the string `boom` makes `WithInvoke` panic with
that same original value — line 303 re-panics after assigning the
wrapped error, so no error is returned and the raw failure escapes. -/
theorem c9_counterexample_panic_escapes :
    withInvoke (.panicked (.pStr "boom")) = .panicked (.pStr "boom")
    ∧ (withInvoke (.panicked (.pStr "boom"))).isRet = false := ⟨rfl, rfl⟩

/-- C9 amended: a handler error that is not already a `BindError` is
wrapped into one preserving the original failure as the cause and is
returned (first conjunct); a `BindError` passes through unchanged
(second conjunct); but a handler panic is re-raised with the original
panic value and escapes to the caller — the wrapped error recorded by
the recover is never returned (third conjunct). -/
theorem c9_wrap_and_reraise :
    (∀ e : GoErr, e.isBindErr = false →
        withInvoke (.ret (some e)) = .ret (some (.bindErr (some e) "internal error" none)))
    ∧ (∀ e : GoErr, e.isBindErr = true → withInvoke (.ret (some e)) = .ret (some e))
    ∧ (∀ v : PanicVal, withInvoke (.panicked v) = .panicked v) := by
  refine ⟨?_, ?_, fun v => rfl⟩
  · intro e h
    simp [withInvoke, h]
  · intro e h
    simp [withInvoke, h]

/-- Witness for C9 at a plain `errors.New` handler error. -/
theorem c9_wrap_and_reraise_witness :
    withInvoke (.ret (some (.errorsNew "x"))) =
      .ret (some (.bindErr (some (.errorsNew "x")) "internal error" none)) :=
  c9_wrap_and_reraise.1 (.errorsNew "x") rfl

/-- C10 counterexample: the claim says the rendered diagnostic has
exactly the form `bind error...`; the rendered string for a
type-less, cause-less error with message `m` is `fang: bind error: m`,
which differs from the claimed `bind error: m` by the leading
`fang: `. -/
theorem c10_counterexample_fang_prefix :
    GoErr.errString (.bindErr none "m" none) = "fang: bind error: m"
    ∧ GoErr.errString (.bindErr none "m" none) ≠ "bind error: m" := ⟨rfl, by decide⟩

/-- C10 amended: every rendered `BindError` is exactly `fang: ` followed
by the claimed template `bind error(type = <T>): <message>; cause by
[<cause>]`, with the type segment present iff the offending type is
known and the cause segment present iff a causing error is known
(`claimedBindErrorBody` is the claim's template verbatim). -/
theorem c10_bind_error_render_form :
    ∀ (cause : Option GoErr) (message : String) (ty : Option GoType),
      GoErr.errString (.bindErr cause message ty) =
        "fang: " ++ claimedBindErrorBody cause message ty := by
  have hlit : ("fang: bind error" : String) = "fang: " ++ "bind error" := rfl
  intro cause message ty
  cases ty <;> cases cause <;>
    simp only [GoErr.errString, claimedBindErrorBody, hlit, strAppendAssoc]

end Fang
